import Mathlib

/-!
Shallow embedding of the highlight-vmaf-api ingestion-and-dispatch pipeline:
the route handlers in api/video_routes.py, the record-store layer in
database/db_access.py, and the queue client in utils/redis_util.py.
Store and broker effects (connection acquisition, query execution, enqueue)
are modelled as explicit outcome parameters; everything else is translated
directly from the Python source.
-/

namespace HVApi

/-! Data model (models.py) -/

/-- Row of the video_info table, as materialized by insert_video_info. -/
structure VideoRecord where
  id : Nat
  original_url : String
  highlight_url : String
  title : String
  status : Int
deriving Repr, DecidableEq

/-- Row of the video_stats table (HighlightStats in models.py).  The float
columns are modelled as optional rationals; no claim computes with them. -/
structure HighlightStat where
  id : Nat
  video_id : Int
  vmaf_mean : Option ℚ
  vmaf_min : Option ℚ
  vmaf_max : Option ℚ
  duration : Option ℚ
  start_time : Option ℚ
  end_time : Option ℚ
deriving Repr, DecidableEq

/-- ApiResponse envelope from models.py. -/
structure ApiResponse (α : Type) where
  code : Nat
  status : String
  message : String
  data : Option α
deriving Repr, DecidableEq

/-- PaginationData envelope from models.py. -/
structure PaginationData (α : Type) where
  totalItems : Nat
  totalPages : Int
  currentPage : Int
  items : List α
deriving Repr, DecidableEq

/-- VideoCreationResult from models.py. -/
structure VideoCreationResult where
  success : Bool
  video_id : Option Nat
  error : Option String
  video_data : Option VideoRecord
deriving Repr, DecidableEq

/-- BatchCreationResponse from models.py. -/
structure BatchCreationResponse where
  total : Nat
  success_count : Nat
  failed_count : Nat
  results : List VideoCreationResult
deriving Repr, DecidableEq

/-! Helper functions of api/video_routes.py -/

/-- create_success_response helper (video_routes.py lines 29-36). -/
def create_success_response (data : α) (message : String) (code : Nat) : ApiResponse α :=
  { code := code, status := "success", message := message, data := some data }

/-- create_error_response helper (video_routes.py lines 39-46). -/
def create_error_response (α : Type) (message : String) (code : Nat) : ApiResponse α :=
  { code := code, status := "failed", message := message, data := none }

/-- create_pagination_data helper (video_routes.py lines 49-58):
total_pages is math.ceil of the exact quotient when page_size is positive,
otherwise 0. -/
def create_pagination_data (items : List α) (total_items : Nat) (current_page page_size : Int) :
    PaginationData α :=
  { totalItems := total_items
    totalPages := if 0 < page_size then ⌈(total_items : ℚ) / (page_size : ℚ)⌉ else 0
    currentPage := current_page
    items := items }

/-! Create path (video_routes.py create_video and batch_create_videos).
The PROCESSOR_VERSION configuration selects the job-descriptor wire shape;
the store insert and the queue push are the two effects of one item. -/

/-- PROCESSOR_VERSION configuration value: "v1", "v2", or anything else. -/
inductive ProcessorVersion
  | v1
  | v2
  | other
deriving Repr, DecidableEq

/-- Outcome of the db.insert_video_info call for one item: it returned the
materialized record dict, returned None (its failure sentinel), or some
exception escaped it (caught by the handler's own except clause). -/
inductive InsertOutcome
  | ok (record : VideoRecord)
  | fail
  | raised (msg : String)
deriving Repr, DecidableEq

/-- Outcome of the redis_client.lpush call for one item: a return value, or
an exception raised out of it. -/
inductive PushOutcome
  | ok (n : Nat)
  | raised (msg : String)
deriving Repr, DecidableEq

/-- The two effects observed while processing one create item. -/
structure ItemEnv where
  insert : InsertOutcome
  push : PushOutcome
deriving Repr, DecidableEq

/-- Number of lpush invocations made after a successful insert: exactly one
when PROCESSOR_VERSION is "v1" or "v2" (lines 91-101), none otherwise. -/
def pushCalls (version : ProcessorVersion) : Nat :=
  match version with
  | .v1 => 1
  | .v2 => 1
  | .other => 0

/-- create_video (video_routes.py lines 64-119).  Returns the response
envelope together with the number of queue-push calls performed.  A push
exception is caught by the inner except clause (lines 102-105) and only
logged, so the returned envelope does not depend on the push outcome. -/
def create_video (version : ProcessorVersion) (env : ItemEnv) :
    ApiResponse VideoRecord × Nat :=
  match env.insert with
  | .fail =>
      (create_error_response VideoRecord "Failed to create video" 500, 0)
  | .raised msg =>
      (create_error_response VideoRecord ("Internal server error: " ++ msg) 500, 0)
  | .ok record =>
      (create_success_response record "Video created successfully" 201, pushCalls version)

/-- Per-item body of the batch loop (video_routes.py lines 140-195): the
VideoCreationResult appended for one item.  As in create_video, a push
exception is swallowed by the inner except clause (lines 174-176), so the
item is still recorded as successful. -/
def processItem (env : ItemEnv) : VideoCreationResult :=
  match env.insert with
  | .fail =>
      { success := false, video_id := none
        error := some "Failed to insert video into database", video_data := none }
  | .raised msg =>
      { success := false, video_id := none, error := some msg, video_data := none }
  | .ok record =>
      { success := true, video_id := some record.id, error := none
        video_data := some record }

/-- The batch loop of batch_create_videos (lines 133-195): walks the items,
incrementing success_count or failed_count and appending one result per
item, in input order. -/
def batchLoop : List ItemEnv → Nat → Nat → List VideoCreationResult →
    Nat × Nat × List VideoCreationResult
  | [], success_count, failed_count, results => (success_count, failed_count, results)
  | env :: rest, success_count, failed_count, results =>
      let r := processItem env
      if r.success then
        batchLoop rest (success_count + 1) failed_count (results ++ [r])
      else
        batchLoop rest success_count (failed_count + 1) (results ++ [r])

/-- The BatchCreationResponse built at lines 198-203. -/
def batchOutcome (envs : List ItemEnv) : BatchCreationResponse :=
  let r := batchLoop envs 0 0 []
  { total := envs.length, success_count := r.1, failed_count := r.2.1, results := r.2.2 }

/-- batch_create_videos (video_routes.py lines 125-224): aggregates the loop
outcome and always wraps it in a success envelope with the created code. -/
def batch_create_videos (envs : List ItemEnv) : ApiResponse BatchCreationResponse :=
  let resp := batchOutcome envs
  let message :=
    if resp.success_count = envs.length then
      "All " ++ toString resp.success_count ++ " videos created successfully"
    else if 0 < resp.success_count then
      toString resp.success_count ++ " videos created, " ++
        toString resp.failed_count ++ " failed"
    else
      "All videos failed to create"
  create_success_response resp message 201

/-! Record Store layer (database/db_access.py).  A read operation either has
no pooled connection available, fails while executing its query (a
mysql.connector.Error), or runs the query against the table contents; the
table is modelled as the list of rows, and the SELECT ... ORDER BY ...
LIMIT ... OFFSET queries the code issues are given their standard list
semantics (filter, stable sort, drop, take).

On the no-connection path, MySQLConnectionPool.get_connection (connection.py)
catches the pool Error and returns None, and the five operations below then
execute a with-statement on that None: entering the with-statement raises a
TypeError before the body's `if not connection` guard can run (the guard is
dead code), and that TypeError is not a mysql.connector.Error, so the
surrounding `except Error` does not catch it and the exception escapes the
store layer.  Each operation therefore returns Except: an error value models
the escaping exception. -/

/-- Outcome of one store access: connection obtained and query executed,
no connection available from the pool (get_connection returned None), or a
store Error raised during query execution. -/
inductive StoreOutcome
  | ok
  | noConn
  | queryError
deriving Repr, DecidableEq

/-- Message of the TypeError raised by entering a with-statement on the None
returned by the pool when no connection is available. -/
def noneCtxError : String :=
  "TypeError: NoneType object does not support the context manager protocol"

/-- Insertion sort step used to interpret ORDER BY. -/
def insertSorted (le : α → α → Bool) (a : α) : List α → List α
  | [] => [a]
  | b :: bs => if le a b then a :: b :: bs else b :: insertSorted le a bs

/-- Stable sort by a boolean comparison, interpreting ORDER BY. -/
def sortByLe (le : α → α → Bool) (l : List α) : List α :=
  l.foldr (insertSorted le) []

/-- LIMIT/OFFSET slice of an ordered result set. -/
def pageSlice (rows : List α) (limit off : Int) : List α :=
  (rows.drop off.toNat).take limit.toNat

/-- Effective ORDER BY column and direction plus LIMIT/OFFSET computed by a
page query before it is sent to the store. -/
structure PageQuery where
  order_by : String
  order_direction : String
  limit : Int
  off : Int
deriving Repr, DecidableEq

/-- ASCII lowercasing of one character, as Python str.lower does on the
ASCII directions involved here. -/
def lowerChar (c : Char) : Char :=
  if 65 ≤ c.toNat ∧ c.toNat ≤ 90 then Char.ofNat (c.toNat + 32) else c

/-- Python str.lower on the sort-direction strings (ASCII). -/
def pyLower (s : String) : String :=
  ⟨s.data.map lowerChar⟩

/-- Sort-column whitelist of get_video_page (db_access.py line 122). -/
def video_valid_columns : List String :=
  ["id", "title", "status", "original_url", "highlight_url"]

/-- Sort-column whitelist of get_highlight_page (db_access.py lines 184-187). -/
def highlight_valid_columns : List String :=
  ["id", "video_id", "vmaf_mean", "vmaf_min",
   "vmaf_max", "duration", "start_time", "end_time"]

/-- Sort validation and pagination arithmetic of get_video_page
(db_access.py lines 121-140): order_by falls back to id outside the
whitelist, order_direction falls back to desc when its lowercase form is
neither asc nor desc, limit is size and offset is (page - 1) * size. -/
def video_page_query (page size : Int) (order_by order_direction : String) : PageQuery :=
  { order_by := if video_valid_columns.contains order_by then order_by else "id"
    order_direction :=
      if ["asc", "desc"].contains (pyLower order_direction) then order_direction else "desc"
    limit := size
    off := (page - 1) * size }

/-- Sort validation and pagination arithmetic of get_highlight_page
(db_access.py lines 183-203), with the same fallbacks over its own
whitelist. -/
def highlight_page_query (page size : Int) (order_by order_direction : String) : PageQuery :=
  { order_by := if highlight_valid_columns.contains order_by then order_by else "id"
    order_direction :=
      if ["asc", "desc"].contains (pyLower order_direction) then order_direction else "desc"
    limit := size
    off := (page - 1) * size }

/-- WHERE clause of _build_filter_query (db_access.py lines 42-65): an
equality condition on status when the filter is not None, AND a LIKE
condition on title when the query string is truthy (not None, not empty). -/
def matchesFilter (status : Option Int) (query : Option String) (v : VideoRecord) : Bool :=
  (match status with
   | none => true
   | some s => v.status = s) &&
  (match query with
   | none => true
   | some q => if q.isEmpty then true else (v.title.splitOn q).length ≥ 2)

/-- Rows of video_info matching the WHERE clause built by
_build_filter_query, shared by get_video_page and get_video_count. -/
def videoFilter (status : Option Int) (query : Option String)
    (table : List VideoRecord) : List VideoRecord :=
  table.filter (matchesFilter status query)

/-- Comparison on video_info rows for one ORDER BY column. -/
def videoLe (col : String) (a b : VideoRecord) : Bool :=
  match col with
  | "title" => a.title ≤ b.title
  | "status" => a.status ≤ b.status
  | "original_url" => a.original_url ≤ b.original_url
  | "highlight_url" => a.highlight_url ≤ b.highlight_url
  | _ => a.id ≤ b.id

/-- ORDER BY interpretation for video_info rows: ascending by the column,
reversed when the direction reads desc. -/
def sortVideos (col dir : String) (rows : List VideoRecord) : List VideoRecord :=
  if pyLower dir = "desc" then (sortByLe (videoLe col) rows).reverse
  else sortByLe (videoLe col) rows

/-- get_video_page (db_access.py lines 118-151): validates the sort inputs
and builds the filtered/sorted/paginated SELECT.  A store Error during
execution is caught at line 149 and converted to the empty list; with no
connection available the with-statement on None raises a TypeError that
`except Error` does not catch, so the call raises (the `if not connection`
guard at lines 144-145 is dead code). -/
def get_video_page (table : List VideoRecord) (outcome : StoreOutcome)
    (page size : Int) (order_by order_direction : String)
    (status : Option Int) (query : Option String) : Except String (List VideoRecord) :=
  let q := video_page_query page size order_by order_direction
  match outcome with
  | .noConn => .error noneCtxError
  | .queryError => .ok []
  | .ok =>
      .ok (pageSlice (sortVideos q.order_by q.order_direction (videoFilter status query table))
        q.limit q.off)

/-- get_video_count (db_access.py lines 153-171): COUNT(*) under the same
filter; a store Error during execution is caught at line 169 and converted
to 0, while the no-connection path raises a TypeError out of the
with-statement on None (the guard at lines 163-164 is dead code). -/
def get_video_count (table : List VideoRecord) (outcome : StoreOutcome)
    (query : Option String) (status : Option Int) : Except String Nat :=
  match outcome with
  | .noConn => .error noneCtxError
  | .queryError => .ok 0
  | .ok => .ok (videoFilter status query table).length

/-- Truthiness test applied to the video_id argument of the highlight
operations: Python treats None and 0 as falsy. -/
def isFalsyId (video_id : Option Int) : Bool :=
  match video_id with
  | none => true
  | some v => v = 0

/-- Comparison on Option columns: NULLs order first ascending, as in MySQL. -/
def optLe (a b : Option ℚ) : Bool :=
  match a, b with
  | none, _ => true
  | some _, none => false
  | some x, some y => x ≤ y

/-- Comparison on video_stats rows for one ORDER BY column. -/
def highlightLe (col : String) (a b : HighlightStat) : Bool :=
  match col with
  | "video_id" => a.video_id ≤ b.video_id
  | "vmaf_mean" => optLe a.vmaf_mean b.vmaf_mean
  | "vmaf_min" => optLe a.vmaf_min b.vmaf_min
  | "vmaf_max" => optLe a.vmaf_max b.vmaf_max
  | "duration" => optLe a.duration b.duration
  | "start_time" => optLe a.start_time b.start_time
  | "end_time" => optLe a.end_time b.end_time
  | _ => a.id ≤ b.id

/-- ORDER BY interpretation for video_stats rows. -/
def sortHighlights (col dir : String) (rows : List HighlightStat) : List HighlightStat :=
  if pyLower dir = "desc" then (sortByLe (highlightLe col) rows).reverse
  else sortByLe (highlightLe col) rows

/-- get_highlight_page (db_access.py lines 173-218).  Returns the rows
together with a flag recording whether the store layer was reached at all:
a falsy video_id returns [] at line 181, before any connection or query is
attempted, for every store outcome.  Past that guard, a store Error during
execution is caught at line 216 and converted to the empty list, while the
no-connection path raises a TypeError out of the with-statement on None
(the guard at lines 208-209 is dead code). -/
def get_highlight_page (table : List HighlightStat) (outcome : StoreOutcome)
    (video_id : Option Int) (page size : Int)
    (order_by order_direction : String) : Except String (List HighlightStat × Bool) :=
  if isFalsyId video_id then .ok ([], false)
  else
    let q := highlight_page_query page size order_by order_direction
    match outcome with
    | .noConn => .error noneCtxError
    | .queryError => .ok ([], true)
    | .ok =>
        let rows := table.filter (fun h => video_id = some h.video_id)
        .ok (pageSlice (sortHighlights q.order_by q.order_direction rows) q.limit q.off, true)

/-- get_highlight_count (db_access.py lines 220-241), with the same
reached-the-store flag: a falsy video_id returns 0 at line 225 before any
connection or query, for every store outcome.  Past that guard, a store
Error is caught at line 239 and converted to 0, while the no-connection
path raises a TypeError out of the with-statement on None (the guard at
lines 231-232 is dead code). -/
def get_highlight_count (table : List HighlightStat) (outcome : StoreOutcome)
    (video_id : Option Int) : Except String (Nat × Bool) :=
  if isFalsyId video_id then .ok (0, false)
  else
    match outcome with
    | .noConn => .error noneCtxError
    | .queryError => .ok (0, true)
    | .ok => .ok ((table.filter (fun h => video_id = some h.video_id)).length, true)

/-- Outcome of the INSERT executed by insert_video_info: committed with a
store-assigned last row id, no connection available, or a store Error. -/
inductive InsertStoreOutcome
  | ok (newId : Nat)
  | noConn
  | storeError
deriving Repr, DecidableEq

/-- insert_video_info (db_access.py lines 89-116): on success returns the
materialized record with the assigned id and status 0; a store Error during
execution is caught at line 114 and converted to the None sentinel, while
the no-connection path raises a TypeError out of the with-statement on None
(the guard at lines 95-96 is dead code, so the sentinel is never produced
for a missing connection). -/
def insert_video_info (outcome : InsertStoreOutcome)
    (original_url highlight_url title : String) : Except String (Option VideoRecord) :=
  match outcome with
  | .noConn => .error noneCtxError
  | .storeError => .ok none
  | .ok newId =>
      .ok (some { id := newId, original_url := original_url, highlight_url := highlight_url
                  title := title, status := 0 })

/-! Read routes (video_routes.py). -/

/-- get_videos (video_routes.py lines 230-285): list page plus count,
wrapped into a pagination envelope inside a success envelope; an exception
escaping the store layer is caught by the route's except clause (lines
280-285) and converted to an internal-error envelope. -/
def get_videos (table : List VideoRecord) (pageOutcome countOutcome : StoreOutcome)
    (page size : Int) (order_by order_direction : String)
    (status_filter : Option Int) (query : Option String) :
    ApiResponse (PaginationData VideoRecord) :=
  match get_video_page table pageOutcome page size order_by order_direction
      status_filter query with
  | .error msg =>
      create_error_response (PaginationData VideoRecord)
        ("Internal server error: " ++ msg) 500
  | .ok videos =>
      match get_video_count table countOutcome query status_filter with
      | .error msg =>
          create_error_response (PaginationData VideoRecord)
            ("Internal server error: " ++ msg) 500
      | .ok total_count =>
          create_success_response (create_pagination_data videos total_count page size)
            "Videos retrieved successfully" 200

/-- get_video_highlights (video_routes.py lines 291-340), with the same
route-level conversion of an escaping exception (lines 335-340). -/
def get_video_highlights (table : List HighlightStat)
    (pageOutcome countOutcome : StoreOutcome) (video_id : Int) (page size : Int)
    (order_by order_direction : String) : ApiResponse (PaginationData HighlightStat) :=
  match get_highlight_page table pageOutcome (some video_id) page size
      order_by order_direction with
  | .error msg =>
      create_error_response (PaginationData HighlightStat)
        ("Internal server error: " ++ msg) 500
  | .ok highlights =>
      match get_highlight_count table countOutcome (some video_id) with
      | .error msg =>
          create_error_response (PaginationData HighlightStat)
            ("Internal server error: " ++ msg) 500
      | .ok total_count =>
          create_success_response
            (create_pagination_data highlights.1 total_count.1 page size)
            "Highlights retrieved successfully" 200

/-- Names of the methods the DBAccess class actually defines
(database/db_access.py lines 6-241). -/
def dbaccess_method_names : List String :=
  ["__init__", "execute_query", "execute_update", "_build_filter_query",
   "get_job_by_id", "insert_video_info", "get_video_page", "get_video_count",
   "get_highlight_page", "get_highlight_count"]

/-- get_highlight_frames (video_routes.py lines 345-394).  The body calls
db.get_frame_page and db.get_frame_count, but DBAccess defines no method of
either name, so the attribute lookup raises AttributeError on every
invocation; the outer except clause (lines 389-394) converts it to an
internal-error envelope.  The success branch below is therefore dead code,
kept only to show what the handler would build if the method existed. -/
def get_highlight_frames (highlight_id page size : Int)
    (order_by order_direction : String) : ApiResponse (PaginationData Unit) :=
  if dbaccess_method_names.contains "get_frame_page" then
    create_success_response (create_pagination_data [] 0 page size)
      "Frames retrieved successfully" 200
  else
    create_error_response (PaginationData Unit)
      "Internal server error: DBAccess object has no attribute get_frame_page" 500

/-! Queue Client (utils/redis_util.py).  An underlying redis-py command is
modelled as a map from the attempt index to its result: a return value, or
one of the exception kinds of redis.exceptions — ConnectionError and
TimeoutError (the transient connectivity errors, both subclasses of
RedisError) or another RedisError. -/

/-- Exception kinds a redis-py command can raise. -/
inductive RedisErrKind
  | conn
  | timeout
  | other
deriving Repr, DecidableEq

/-- The exception classes caught by the retry loop: ConnectionError and
TimeoutError (redis_util.py line 84). -/
def RedisErrKind.transientErr : RedisErrKind → Bool
  | .conn => true
  | .timeout => true
  | .other => false

/-- The retry loop of retry_operation (redis_util.py lines 77-91), written
over the remaining fuel (max_retries - attempt): returns the final result
(the value returned, or the exception raised out of the loop), the list of
back-off sleeps performed (in seconds, as exact rationals), and the number
of calls made to the underlying command.  A transient error sleeps
0.1 * 2 ^ attempt seconds when further attempts remain (lines 86-89); any
other exception propagates out of the loop at once; exhausting the budget
re-raises the last transient error (line 91). -/
def retryGo (f : Nat → Except RedisErrKind α) (attempt : Nat) (fuel : Nat)
    (last : RedisErrKind) : Except RedisErrKind α × List ℚ × Nat :=
  match fuel with
  | 0 => (.error last, [], 0)
  | fuel' + 1 =>
      match f attempt with
      | .ok v => (.ok v, [], 1)
      | .error e =>
          if e.transientErr then
            if 0 < fuel' then
              let w : ℚ := 1 / 10 * 2 ^ attempt
              let rest := retryGo f (attempt + 1) fuel' e
              (rest.1, w :: rest.2.1, rest.2.2 + 1)
            else
              let rest := retryGo f (attempt + 1) fuel' e
              (rest.1, rest.2.1, rest.2.2 + 1)
          else (.error e, [], 1)

/-- The method _retry_operation with its default budget max_retries = 3
(the leading underscore is dropped for Lean).  The seed of the last-error
accumulator is never the result because the loop runs at least once. -/
def retry_operation (f : Nat → Except RedisErrKind α) :
    Except RedisErrKind α × List ℚ × Nat :=
  retryGo f 0 3 .other

/-- lpush (redis_util.py lines 163-169): runs the LPUSH command through the
retry loop; any RedisError escaping it — every RedisErrKind models a
RedisError subclass — is caught, logged, and converted to a return of 0. -/
def lpush (f : Nat → Except RedisErrKind Nat) : Nat :=
  match (retry_operation f).1 with
  | .ok n => n
  | .error _ => 0

/-- blpop (redis_util.py lines 240-254): a single un-retried call whose
result is returned as is (None models the timeout return), whose
ConnectionError is re-raised, and whose any other RedisError is logged and
converted to None. -/
def blpop (call : Except RedisErrKind (Option String)) :
    Except RedisErrKind (Option String) :=
  match call with
  | .ok v => .ok v
  | .error .conn => .error .conn
  | .error _ => .ok none

/-- A command that raises ConnectionError on every attempt. -/
def allConnFail : Nat → Except RedisErrKind Nat :=
  fun _ => .error .conn

/-- A command that raises ConnectionError once, then returns 5. -/
def connThenOk : Nat → Except RedisErrKind Nat :=
  fun attempt => if attempt = 0 then .error .conn else .ok 5

/-- A command that raises a non-transient RedisError on every attempt. -/
def allOtherFail : Nat → Except RedisErrKind Nat :=
  fun _ => .error .other

/-! Helper lemmas -/

/-- Closed form of the batch loop: starting from given counters and an
accumulated result list, it adds the number of successful and failed items
and appends one result per input item, in input order. -/
theorem batchLoop_eq (envs : List ItemEnv) : ∀ s f acc,
    batchLoop envs s f acc =
      (s + (envs.map processItem).countP (fun r => r.success),
       f + (envs.map processItem).countP (fun r => !r.success),
       acc ++ envs.map processItem) := by
  induction envs with
  | nil => intro s f acc; simp [batchLoop]
  | cons e rest ih =>
    intro s f acc
    by_cases h : (processItem e).success
    · simp [batchLoop, h, ih, List.countP_cons, Prod.ext_iff]
      omega
    · simp [batchLoop, h, ih, List.countP_cons, Prod.ext_iff]
      omega

/-- Counting a predicate and its negation partitions a list's length. -/
theorem countP_add_countP_not (p : α → Bool) (l : List α) :
    l.countP p + l.countP (fun a => !p a) = l.length := by
  induction l with
  | nil => simp
  | cons a t ih =>
    by_cases h : p a <;> simp [List.countP_cons, h] <;> omega

/-- The retry loop calls the underlying command at most fuel times. -/
theorem retryGo_calls_le (f : Nat → Except RedisErrKind α) :
    ∀ fuel attempt last, (retryGo f attempt fuel last).2.2 ≤ fuel := by
  intro fuel
  induction fuel with
  | zero => intro attempt last; simp [retryGo]
  | succ fuel' ih =>
    intro attempt last
    simp only [retryGo]
    cases f attempt with
    | ok v => simp
    | error e =>
      by_cases ht : e.transientErr
      · by_cases hf : 0 < fuel' <;>
          simp only [ht, hf, if_true, if_false] <;>
          have := ih (attempt + 1) e <;> omega
      · simp [ht]

/-! Claim theorems -/

/-- C1: when the Record Store insert succeeds but the subsequent queue push
raises, createOne still returns the stored record in a success envelope with
code 201, and a batch item in the same situation is recorded with
success = true and adds one to success_count. -/
theorem claim_C1_push_failure_still_success (version : ProcessorVersion)
    (record : VideoRecord) (msg : String) (pre post : List ItemEnv) :
    (create_video version ⟨.ok record, .raised msg⟩).1 =
      create_success_response record "Video created successfully" 201 ∧
    processItem ⟨.ok record, .raised msg⟩ =
      ⟨true, some record.id, none, some record⟩ ∧
    (batchOutcome (pre ++ ⟨.ok record, .raised msg⟩ :: post)).success_count =
      (batchOutcome (pre ++ post)).success_count + 1 ∧
    (batchOutcome (pre ++ ⟨.ok record, .raised msg⟩ :: post)).results =
      pre.map processItem ++
        ⟨true, some record.id, none, some record⟩ :: post.map processItem := by
  refine ⟨rfl, rfl, ?_, ?_⟩
  · simp [batchOutcome, batchLoop_eq, List.countP_cons, processItem]
    omega
  · simp [batchOutcome, batchLoop_eq, processItem]

/-- C2: for every batch of N items (1 <= N <= 100), the BatchOutcome has
total = N, success_count + failed_count = N, exactly N results, and the
results list is the per-item outcome of each input in input order; the
response envelope carries exactly that outcome. -/
theorem claim_C2_batch_accounting (envs : List ItemEnv)
    (hlo : 1 ≤ envs.length) (hhi : envs.length ≤ 100) :
    (batchOutcome envs).total = envs.length ∧
    (batchOutcome envs).success_count + (batchOutcome envs).failed_count =
      envs.length ∧
    (batchOutcome envs).results.length = envs.length ∧
    (batchOutcome envs).results = envs.map processItem ∧
    (batch_create_videos envs).data = some (batchOutcome envs) := by
  refine ⟨rfl, ?_, ?_, ?_, rfl⟩
  · simp [batchOutcome, batchLoop_eq]
    have := countP_add_countP_not (fun r => r.success) (envs.map processItem)
    simp at this
    simp [this]
  · simp [batchOutcome, batchLoop_eq]
  · simp [batchOutcome, batchLoop_eq]

/-- C2 witness: a concrete two-item batch (one insert success, one insert
failure) satisfies the accounting invariants. -/
theorem claim_C2_batch_accounting_witness :
    (1 ≤ ([⟨.ok ⟨7, "a", "b", "t", 0⟩, .ok 1⟩, ⟨.fail, .ok 1⟩] : List ItemEnv).length ∧
     ([⟨.ok ⟨7, "a", "b", "t", 0⟩, .ok 1⟩, ⟨.fail, .ok 1⟩] : List ItemEnv).length ≤ 100) ∧
    (batchOutcome [⟨.ok ⟨7, "a", "b", "t", 0⟩, .ok 1⟩, ⟨.fail, .ok 1⟩]).total = 2 ∧
    (batchOutcome [⟨.ok ⟨7, "a", "b", "t", 0⟩, .ok 1⟩, ⟨.fail, .ok 1⟩]).success_count +
      (batchOutcome [⟨.ok ⟨7, "a", "b", "t", 0⟩, .ok 1⟩, ⟨.fail, .ok 1⟩]).failed_count = 2 := by
  have h := claim_C2_batch_accounting
    [⟨.ok ⟨7, "a", "b", "t", 0⟩, .ok 1⟩, ⟨.fail, .ok 1⟩] (by decide) (by decide)
  exact ⟨⟨by decide, by decide⟩, h.1, h.2.1⟩

/-- C9: when the Record Store insert returns its failure sentinel, createOne
returns a failed envelope with the internal-error code 500 and performs no
queue push. -/
theorem claim_C9_insert_failure_no_push (version : ProcessorVersion)
    (push : PushOutcome) :
    create_video version ⟨.fail, push⟩ =
      (create_error_response VideoRecord "Failed to create video" 500, 0) := rfl

/-- C3: on every list-page query, a sort column outside the entity's
whitelist yields the effective column id, and a direction whose lowercase
form is neither asc nor desc yields the per-call default desc — for the
video listing and the highlight-stats listing alike. -/
theorem claim_C3_sort_whitelist (page size : Int) (order_by order_direction : String) :
    (order_by ∉ video_valid_columns →
      (video_page_query page size order_by order_direction).order_by = "id") ∧
    ((pyLower order_direction) ∉ (["asc", "desc"] : List String) →
      (video_page_query page size order_by order_direction).order_direction = "desc") ∧
    (order_by ∉ highlight_valid_columns →
      (highlight_page_query page size order_by order_direction).order_by = "id") ∧
    ((pyLower order_direction) ∉ (["asc", "desc"] : List String) →
      (highlight_page_query page size order_by order_direction).order_direction = "desc") := by
  refine ⟨?_, ?_, ?_, ?_⟩ <;> intro h <;>
    simp [video_page_query, highlight_page_query, List.contains, h]

/-- C3 witness: a sort column and direction outside the whitelists fall back
to id and desc on both entity types. -/
theorem claim_C3_sort_whitelist_witness :
    ("bogus" ∉ video_valid_columns ∧ "bogus" ∉ highlight_valid_columns ∧
      pyLower "UPWARD" ∉ (["asc", "desc"] : List String)) ∧
    (video_page_query 1 10 "bogus" "UPWARD").order_by = "id" ∧
    (video_page_query 1 10 "bogus" "UPWARD").order_direction = "desc" ∧
    (highlight_page_query 1 10 "bogus" "UPWARD").order_by = "id" ∧
    (highlight_page_query 1 10 "bogus" "UPWARD").order_direction = "desc" := by
  have h := claim_C3_sort_whitelist 1 10 "bogus" "UPWARD"
  exact ⟨⟨by decide, by decide, by decide⟩, h.1 (by decide), h.2.1 (by decide),
    h.2.2.1 (by decide), h.2.2.2 (by decide)⟩

/-- C4: the code bug, evaluated.  When no pooled connection is available
(get_connection returned None), every claimed operation enters a
with-statement on None and raises a TypeError that its `except Error`
clause does not catch, so a store exception escapes to the caller instead
of the claimed [] / 0 / None sentinels; only a mysql.connector.Error raised
during query execution is converted to the sentinels. -/
theorem claim_C4_noconn_exception_escapes (vtable : List VideoRecord)
    (htable : List HighlightStat) (page size : Int)
    (order_by order_direction : String) (status : Option Int) (query : Option String)
    (orig hl ttl : String) :
    get_video_page vtable .noConn page size order_by order_direction status query =
      .error noneCtxError ∧
    get_video_count vtable .noConn query status = .error noneCtxError ∧
    get_highlight_page htable .noConn (some 1) page size order_by order_direction =
      .error noneCtxError ∧
    get_highlight_count htable .noConn (some 1) = .error noneCtxError ∧
    insert_video_info .noConn orig hl ttl = .error noneCtxError ∧
    get_video_page vtable .queryError page size order_by order_direction status query =
      .ok [] ∧
    get_video_count vtable .queryError query status = .ok 0 ∧
    get_highlight_page htable .queryError (some 1) page size order_by order_direction =
      .ok ([], true) ∧
    get_highlight_count htable .queryError (some 1) = .ok (0, true) ∧
    insert_video_info .storeError orig hl ttl = .ok none :=
  ⟨rfl, rfl, rfl, rfl, rfl, rfl, rfl, rfl, rfl, rfl⟩

/-- C10: a falsy parent id (None or 0) makes get_highlight_page return the
empty list and get_highlight_count return 0 immediately, with the
reached-the-store flag false: no store access happens. -/
theorem claim_C10_falsy_parent_id (htable : List HighlightStat)
    (outcome : StoreOutcome) (page size : Int) (order_by order_direction : String) :
    get_highlight_page htable outcome none page size order_by order_direction =
      .ok ([], false) ∧
    get_highlight_page htable outcome (some 0) page size order_by order_direction =
      .ok ([], false) ∧
    get_highlight_count htable outcome none = .ok (0, false) ∧
    get_highlight_count htable outcome (some 0) = .ok (0, false) := by
  refine ⟨?_, ?_, ?_, ?_⟩ <;> simp [get_highlight_page, get_highlight_count, isFalsyId]

/-- C5: the code bug, evaluated.  DBAccess defines no get_frame_page or
get_frame_count method, so on the valid request highlight_id = 1, page = 1,
size = 10 the frames endpoint raises AttributeError internally and returns a
failed envelope with code 500 and no data — not the success envelope with a
pagination envelope that the spec promises. -/
theorem claim_C5_frames_route_always_errors :
    get_highlight_frames 1 1 10 "id" "asc" =
      create_error_response (PaginationData Unit)
        "Internal server error: DBAccess object has no attribute get_frame_page" 500 ∧
    (get_highlight_frames 1 1 10 "id" "asc").status = "failed" ∧
    (get_highlight_frames 1 1 10 "id" "asc").code = 500 ∧
    (get_highlight_frames 1 1 10 "id" "asc").data = none := by
  refine ⟨?_, ?_, ?_, ?_⟩ <;>
    simp [get_highlight_frames, dbaccess_method_names, create_error_response]

/-- C6: every pagination envelope built by the read path has
totalPages = ceil(totalItems / pageSize) when pageSize is positive and
totalPages = 0 when pageSize is not positive; totalPages = 0 whenever
totalItems = 0; and a count of 0 with any requested page yields a success
envelope with empty items and totalPages = 0, not an error. -/
theorem claim_C6_pagination_envelope (items : List VideoRecord) (total : Nat)
    (table : List VideoRecord) (page size : Int) (order_by order_direction : String)
    (status_filter : Option Int) (query : Option String) :
    (0 < size →
      (create_pagination_data items total page size).totalPages =
        ⌈(total : ℚ) / (size : ℚ)⌉) ∧
    (size ≤ 0 → (create_pagination_data items total page size).totalPages = 0) ∧
    (create_pagination_data items 0 page size).totalPages = 0 ∧
    (get_video_count table .ok query status_filter = .ok 0 →
      get_videos table .ok .ok page size order_by order_direction status_filter query =
        create_success_response (PaginationData.mk 0 0 page [])
          "Videos retrieved successfully" 200) := by
  refine ⟨?_, ?_, ?_, ?_⟩
  · intro h
    simp [create_pagination_data, h]
  · intro h
    simp [create_pagination_data]
    omega
  · simp only [create_pagination_data]
    split <;> simp
  · intro h
    have hf : videoFilter status_filter query table = [] := by
      simpa [get_video_count, List.length_eq_zero] using h
    simp only [get_videos, get_video_page, get_video_count, hf, sortVideos, sortByLe,
      List.foldr_nil, List.reverse_nil, pageSlice, List.drop_nil, List.take_nil,
      List.length_nil, create_pagination_data, create_success_response]
    split <;> simp

/-- C6 witness: concrete instantiations of each clause — 25 items at page
size 10 give ceil(25/10) pages, a non-positive page size gives 0 pages, and
an empty store gives the empty success envelope at page 5. -/
theorem claim_C6_pagination_envelope_witness :
    (create_pagination_data ([] : List VideoRecord) 25 2 10).totalPages =
      ⌈(25 : ℚ) / (10 : ℚ)⌉ ∧
    (create_pagination_data ([] : List VideoRecord) 25 2 (-3)).totalPages = 0 ∧
    get_videos [] .ok .ok 5 10 "id" "desc" none none =
      create_success_response (PaginationData.mk 0 0 5 [])
        "Videos retrieved successfully" 200 := by
  have h1 := claim_C6_pagination_envelope ([] : List VideoRecord) 25 [] 2 10 "id" "desc" none none
  have h2 := claim_C6_pagination_envelope ([] : List VideoRecord) 25 [] 2 (-3) "id" "desc" none none
  have h3 := claim_C6_pagination_envelope ([] : List VideoRecord) 0 [] 5 10 "id" "desc" none none
  exact ⟨h1.1 (by decide), h2.2.1 (by decide), h3.2.2.2 rfl⟩

/-- C7: the queue push retries the underlying command at most 3 times in
total; a non-transient broker error is raised out of the retry loop at once
(one call, no sleep) and converted by lpush to a 0 return; a transient
connectivity error is retried after sleeping 0.1s, then 0.2s, and when it
persists through all three attempts lpush still returns 0 instead of
raising. -/
theorem claim_C7_push_retry_policy (f : Nat → Except RedisErrKind Nat) (n : Nat) :
    (retry_operation f).2.2 ≤ 3 ∧
    (f 0 = .error .other →
      retry_operation f = (.error .other, [], 1) ∧ lpush f = 0) ∧
    (f 0 = .error .conn → f 1 = .ok n →
      retry_operation f = (.ok n, [1 / 10], 2) ∧ lpush f = n) ∧
    ((∀ k, k < 3 → f k = .error .conn) →
      retry_operation f = (.error .conn, [1 / 10, 1 / 5], 3) ∧ lpush f = 0) := by
  refine ⟨retryGo_calls_le f 3 0 .other, ?_, ?_, ?_⟩
  · intro h0
    constructor
    · simp [retry_operation, retryGo, h0, RedisErrKind.transientErr]
    · simp [lpush, retry_operation, retryGo, h0, RedisErrKind.transientErr]
  · intro h0 h1
    constructor
    · simp [retry_operation, retryGo, h0, h1, RedisErrKind.transientErr]
    · simp [lpush, retry_operation, retryGo, h0, h1, RedisErrKind.transientErr]
  · intro h
    have h0 := h 0 (by omega)
    have h1 := h 1 (by omega)
    have h2 := h 2 (by omega)
    constructor
    · simp [retry_operation, retryGo, h0, h1, h2, RedisErrKind.transientErr]
      norm_num
    · simp [lpush, retry_operation, retryGo, h0, h1, h2, RedisErrKind.transientErr]

/-- C7 witness: a command failing non-transiently, one failing transiently on
every attempt, and one recovering on the second attempt, pushed through
lpush. -/
theorem claim_C7_push_retry_policy_witness :
    lpush allOtherFail = 0 ∧
    retry_operation allConnFail = (.error .conn, [1 / 10, 1 / 5], 3) ∧
    lpush allConnFail = 0 ∧
    lpush connThenOk = 5 := by
  have h1 := claim_C7_push_retry_policy allOtherFail 0
  have h2 := claim_C7_push_retry_policy allConnFail 0
  have h3 := claim_C7_push_retry_policy connThenOk 5
  exact ⟨(h1.2.1 rfl).2, (h2.2.2.2 (fun k _ => rfl)).1, (h2.2.2.2 (fun k _ => rfl)).2,
    (h3.2.2.1 rfl rfl).2⟩

/-- C8: blockingPop returns a popped value as is, returns None on the
timeout return of the underlying call, re-raises a ConnectionError, and
converts any other RedisError (TimeoutError included) to None. -/
theorem claim_C8_blpop_semantics (v : String) :
    blpop (.ok (some v)) = .ok (some v) ∧
    blpop (.ok none) = .ok none ∧
    blpop (.error .conn) = .error .conn ∧
    blpop (.error .timeout) = .ok none ∧
    blpop (.error .other) = .ok none :=
  ⟨rfl, rfl, rfl, rfl, rfl⟩

end HVApi
